import Mathlib

/-!
Verification development for the PTZ scan/track control core.

The definitions below are a shallow embedding of the Python sources
main.py, source/bring_data.py and source/object_detector.py.
Python floats are modelled as real numbers; integer-or-exact quantities
(bounding boxes, image sizes, confidence thresholds, rewards) are
modelled as rationals; raised exceptions are modelled explicitly.
-/

open Real

/-! ## Field-of-view model (source/bring_data.py, get_fov_from_zoom) -/

/-- Degree-to-radian conversion, as computed by math.radians. -/
noncomputable def radians (x : ℝ) : ℝ := x * π / 180

/-- Radian-to-degree conversion, as computed by math.degrees. -/
noncomputable def degrees (x : ℝ) : ℝ := x * 180 / π

/-- Embedding of get_fov_from_zoom (source/bring_data.py lines 462-484).
The source also binds max_focal_length = 170 and the tele FOV endpoints
(h_tele = 1.88, v_tele = 1.09), but none of those four constants occur in
any formula of the function body, so they are omitted here.  The zoom level
is clamped to [min_zoom, max_zoom], the focal length scales linearly with
the clamped zoom, the sensor dimensions are recovered from the wide-end FOV
at the minimum focal length, and the current FOV is obtained from the
pinhole model with an arctangent. -/
noncomputable def get_fov_from_zoom (zoom_level : ℝ) : ℝ × ℝ :=
  let min_focal_length : ℝ := 4.25
  let h_wide : ℝ := 65.66
  let v_wide : ℝ := 39.40
  let min_zoom : ℝ := 1
  let max_zoom : ℝ := 40
  let z := max min_zoom (min max_zoom zoom_level)
  let focal_length := min_focal_length * z
  let sensor_width := 2 * min_focal_length * Real.tan (radians (h_wide / 2))
  let sensor_height := 2 * min_focal_length * Real.tan (radians (v_wide / 2))
  (degrees (2 * Real.arctan (sensor_width / (2 * focal_length))),
   degrees (2 * Real.arctan (sensor_height / (2 * focal_length))))

/-- One axis of get_fov_from_zoom, abstracted over the wide-end angle w.
Both components of get_fov_from_zoom are instances of this expression. -/
noncomputable def fov_axis (w z : ℝ) : ℝ :=
  degrees (2 * Real.arctan (2 * 4.25 * Real.tan (radians (w / 2)) /
    (2 * (4.25 * max 1 (min 40 z)))))

/-- Linear-interpolation FOV model, following the words of the spec
(section 4.1) rather than the source; used only to compare the spec
formula against the implementation. -/
noncomputable def fov_linear_spec (zoom : ℝ) : ℝ × ℝ :=
  let z := max 1 (min 40 zoom)
  let t := (z - 1) / (40 - 1)
  (65.66 - t * (65.66 - 1.88), 39.40 - t * (39.40 - 1.09))

/-! ## Python-level error and result model -/

/-- Python exception classes raised by the paths modelled here. -/
inductive PyErr where
  | typeError
  | zeroDivisionError
  | attributeError
  | nameError
  | valueError
deriving DecidableEq

/-- Result of running a Python call: a value, or an uncaught exception. -/
inductive PyResult (α : Type) where
  | ok (a : α)
  | exn (e : PyErr)
deriving DecidableEq

/-! ## Detector factory (source/object_detector.py, DetectorFactory) -/

/-- Detector returned by the factory: a YOLO family model or a Florence
model.  Model loading itself happens outside the modelled core. -/
inductive DetectorKind where
  | yolo (name : String)
  | florence (name : String)
deriving DecidableEq

/-- Substring test, as the Python operator in performs on strings. -/
def strContains (s sub : String) : Bool :=
  s.toList.tails.any (fun t => sub.toList.isPrefixOf t)

/-- Tag scanned for to classify a model name as a YOLO model. -/
def yolo_tag : String := "yolo"

/-- Tag scanned for to classify a model name as a Florence model. -/
def florence_tag : String := "florence"

/-- Test for the regular expression (yolov(8|9|10)|yolo11)[nsmlex] anchored
at both ends, applied to the lowercased model name. -/
def yolo_name_ok (m : String) : Bool :=
  ["yolov8", "yolov9", "yolov10", "yolo11"].any
    (fun p => "nsmlex".toList.any (fun c => m == p.push c))

/-- Test for the regular expression florence-(base|large) anchored at both
ends, applied to the lowercased model name. -/
def florence_name_ok (m : String) : Bool :=
  m == "florence-base" || m == "florence-large"

/-- Embedding of DetectorFactory.create_detector
(source/object_detector.py lines 190-223): lowercase the name, dispatch on
the substring yolo or florence, validate against the regular expression of
the family, raise ValueError otherwise. -/
def create_detector (model_name : String) : PyResult DetectorKind :=
  let m := model_name.toLower
  if strContains m yolo_tag then
    if yolo_name_ok m then .ok (.yolo m) else .exn .valueError
  else if strContains m florence_tag then
    if florence_name_ok m then .ok (.florence m) else .exn .valueError
  else .exn .valueError

/-- Positional-parameter signature of a Python function: total number of
parameters and how many of them carry defaults. -/
structure PySignature where
  n_params : Nat
  n_defaults : Nat
deriving DecidableEq

/-- Signature of DetectorFactory.create_detector: a staticmethod with the
single parameter model_name and no defaults
(source/object_detector.py line 191). -/
def create_detector_signature : PySignature :=
  { n_params := 1, n_defaults := 0 }

/-- Python positional-argument binding: a call with n_args positional
arguments binds against a signature exactly when the count lies between
the number of non-default parameters and the total parameter count;
otherwise the call raises TypeError before the body runs. -/
def binds_positional (sig : PySignature) (n_args : Nat) : Bool :=
  decide (sig.n_params - sig.n_defaults ≤ n_args) && decide (n_args ≤ sig.n_params)

/-- Embedding of the call site in main.py line 69:
DetectorFactory.create_detector(args.model, objects, args.prompt_context)
passes three positional arguments, so Python first binds them against the
one-parameter signature and raises TypeError on mismatch; only on a
successful binding would the factory body run. -/
def call_create_detector (model : String) (objects : List String)
    (prompt_context : String) : PyResult DetectorKind :=
  if binds_positional create_detector_signature 3 then create_detector model
  else .exn .typeError

/-- Outcome of the startup section of look_for_object. -/
inductive StartOutcome where
  | exitWithCode (code : Nat)
  | scanLoopEntered
deriving DecidableEq

/-- Embedding of main.py lines 68-76: the detector construction is wrapped
in try/except Exception; any exception leads to sys.exit(1), and only a
successful construction reaches the scan loop. -/
def look_for_object_startup (model : String) (objects : List String)
    (prompt_context : String) : StartOutcome :=
  match call_create_detector model objects prompt_context with
  | .ok _ => .scanLoopEntered
  | .exn _ => .exitWithCode 1

/-! ## Detections and best-match selection -/

/-- Detection record as produced by get_label_from_image_and_object:
a reward in [0,1] (lower is better), a bounding box and a label. -/
structure Detection where
  reward : ℚ
  bbox : ℚ × ℚ × ℚ × ℚ
  label : String
deriving DecidableEq

/-- Embedding of min(detections, key=lambda x: x[reward]) as used in
get_image_from_ptz_position (source/bring_data.py line 380): the first
detection of minimal reward, or None on an empty list. -/
def best_detection : List Detection → Option Detection
  | [] => none
  | d :: ds => some (ds.foldl (fun acc x => if x.reward < acc.reward then x else acc) d)

/-! ## Tracking transform (source/bring_data.py, center_and_maximize_object) -/

/-- Commands issued to the camera by the tracking code.  A relative move
records the pan and tilt arguments and, when the call passes one, the zoom
argument; sleepCmd records a settle wait (none occur in the source). -/
inductive CamCmd where
  | relMove (pan tilt : ℝ) (zoom : Option ℝ)
  | absMove (pan tilt zoom : ℝ)
  | snapshot
  | sleepCmd (seconds : ℝ)

/-- Predicate selecting relative-move commands. -/
def isRelMove : CamCmd → Bool
  | .relMove _ _ _ => true
  | _ => false

/-- Predicate selecting sleep commands. -/
def isSleep : CamCmd → Bool
  | .sleepCmd _ => true
  | _ => false

/-- Predicate selecting snapshot commands. -/
def isSnapshotCmd : CamCmd → Bool
  | .snapshot => true
  | _ => false

/-- Embedding of source/bring_data.py lines 96-135: the centering offsets.
The bounding-box center is compared with the image center, the pixel
difference is divided by the image dimension and scaled by the current
field of view obtained from get_fov_from_zoom at the queried zoom level. -/
noncomputable def pan_tilt_delta (x1 y1 x2 y2 W H : ℚ) (zoom_level : ℝ) : ℝ × ℝ :=
  let bbox_center_x : ℝ := ((x1 : ℝ) + (x2 : ℝ)) / 2
  let bbox_center_y : ℝ := ((y1 : ℝ) + (y2 : ℝ)) / 2
  let image_center_x : ℝ := (W : ℝ) / 2
  let image_center_y : ℝ := (H : ℝ) / 2
  let diff_x := image_center_x - bbox_center_x
  let diff_y := image_center_y - bbox_center_y
  let fov := get_fov_from_zoom zoom_level
  (-(diff_x / (W : ℝ)) * fov.1, -(diff_y / (H : ℝ)) * fov.2)

/-- Embedding of source/bring_data.py lines 146-163: the relative zoom.
The zoom factor is the smaller of the width and height ratios, the current
zoom is normalised by MZ = 40, scaled by the zoom factor, rescaled by
MZ - mz = 39, and the current zoom is subtracted.  No clamping to the
mechanical zoom range occurs in this variant. -/
noncomputable def relative_zoom_calc (W H bbox_width bbox_height : ℚ)
    (zoom_level : ℝ) : ℝ :=
  let zoom_factor_x : ℝ := (W : ℝ) / (bbox_width : ℝ)
  let zoom_factor_y : ℝ := (H : ℝ) / (bbox_height : ℝ)
  let zoom_factor := min zoom_factor_x zoom_factor_y
  let mz : ℝ := 1
  let MZ : ℝ := 40
  let current_zoom_factor := zoom_level / MZ
  let target_zoom_factor := current_zoom_factor * zoom_factor
  target_zoom_factor * (MZ - mz) - zoom_level

/-- Embedding of center_and_maximize_object (source/bring_data.py lines
85-203) as the trace of camera commands it issues, paired with the
uncaught exception it raises, if any.  The camera handle construction and
position query are assumed to succeed; zoom_level is the queried zoom.
The function first issues relative_control(pan, tilt); it then computes
bbox_width = x2 - x1 and bbox_height = y2 - y1 and divides the image
dimensions by them, so a zero width or height raises ZeroDivisionError
at that point (Python integer-over-zero true division); otherwise it
issues relative_control(0, 0, relative_zoom) and, exactly when reward is
not None, reward < 1 - confidence and label is not None, takes a
confirmation snapshot.  No sleep occurs anywhere in the function. -/
noncomputable def center_and_maximize_object (confidence : ℚ)
    (x1 y1 x2 y2 W H : ℚ) (zoom_level : ℝ) (reward : Option ℚ)
    (label : Option String) : List CamCmd × Option PyErr :=
  let pt := pan_tilt_delta x1 y1 x2 y2 W H zoom_level
  let firstMove := CamCmd.relMove pt.1 pt.2 none
  let bbox_width := x2 - x1
  let bbox_height := y2 - y1
  if bbox_width = 0 then ([firstMove], some PyErr.zeroDivisionError)
  else if bbox_height = 0 then ([firstMove], some PyErr.zeroDivisionError)
  else
    let relative_zoom := relative_zoom_calc W H bbox_width bbox_height zoom_level
    let secondMove := CamCmd.relMove 0 0 (some relative_zoom)
    match reward, label with
    | some r, some _ =>
        if r < 1 - confidence then ([firstMove, secondMove, CamCmd.snapshot], none)
        else ([firstMove, secondMove], none)
    | _, _ => ([firstMove, secondMove], none)

/-- Embedding of the per-detection body of center_and_maximize_objects_absolute
(source/bring_data.py lines 242-323): the same centering offsets and
relative zoom as the relative variant, then an absolute target pose.  The
pan is wrapped by a single conditional subtraction or addition of 360, and
tilt and zoom are clamped to [-20, 90] and [1, 40] respectively. -/
noncomputable def absolute_target (current_pan current_tilt current_zoom : ℝ)
    (x1 y1 x2 y2 W H : ℚ) : ℝ × ℝ × ℝ :=
  let pt := pan_tilt_delta x1 y1 x2 y2 W H current_zoom
  let absolute_pan0 := current_pan + pt.1
  let absolute_pan :=
    if absolute_pan0 > 360 then absolute_pan0 - 360
    else if absolute_pan0 < 0 then absolute_pan0 + 360
    else absolute_pan0
  let absolute_tilt0 := current_tilt + pt.2
  let absolute_tilt :=
    if absolute_tilt0 > 90 then (90 : ℝ)
    else if absolute_tilt0 < -20 then (-20 : ℝ)
    else absolute_tilt0
  let relative_zoom := relative_zoom_calc W H (x2 - x1) (y2 - y1) current_zoom
  let absolute_zoom0 := current_zoom + relative_zoom
  let absolute_zoom :=
    if absolute_zoom0 > 40 then (40 : ℝ)
    else if absolute_zoom0 < 1 then (1 : ℝ)
    else absolute_zoom0
  (absolute_pan, absolute_tilt, absolute_zoom)

/-! ## Probe and sweep (source/bring_data.py get_image_from_ptz_position,
main.py look_for_object) -/

/-- External-world outcome of one probe position: whether the camera
handle construction succeeded, the path returned by each of the two
grab_image calls (none when the snapshot raised and grab_image returned
None), and the detections the detector reports. -/
structure ProbeEnv where
  camera_ok : Bool
  first_snap : Option String
  second_snap : Option String
  detections : List Detection
deriving DecidableEq

/-- Embedding of get_image_from_ptz_position (source/bring_data.py lines
359-404).  A failed CameraControl construction is caught and logged, but
then Camera1 is unbound and the following absolute_control raises
NameError.  The first grab_image returns None when the snapshot raised,
and Image.open(None) then raises before any None check a caller could
perform.  Otherwise the best detection is selected by minimal reward and
the path of the second grab_image (None on failure) is returned. -/
def get_image_from_ptz_position (env : ProbeEnv) :
    PyResult (Option String × Option Detection) :=
  if env.camera_ok = false then .exn .nameError
  else
    match env.first_snap with
    | none => .exn .attributeError
    | some _ =>
        let LABEL := best_detection env.detections
        .ok (env.second_snap, LABEL)

/-- Embedding of the inner pan loop of look_for_object (main.py lines
84-105) restricted to the probe calls: main.py wraps no try/except around
get_image_from_ptz_position, so an exception raised by a probe propagates
and ends the whole iteration; otherwise the probe result is collected and
the loop continues with the next pan value. -/
def sweep_probes (envs : ℕ → ProbeEnv) :
    List ℕ → PyResult (List (Option String × Option Detection))
  | [] => .ok []
  | pan :: rest =>
      match get_image_from_ptz_position (envs pan) with
      | .exn e => .exn e
      | .ok r =>
          match sweep_probes envs rest with
          | .exn e => .exn e
          | .ok rs => .ok (r :: rs)

/-! ## Scan-loop state updates (main.py look_for_object) -/

/-- Embedding of main.py line 80: pans = range(0, 360, panstep).  For a
positive step this is the increasing list of multiples of the step that
are strictly below 360; the Python call raises for step zero and returns
the empty list for negative steps, neither of which occurs here. -/
def pans (panstep : ℕ) : List ℕ :=
  (List.range ((360 + panstep - 1) / panstep)).map (fun i => i * panstep)

/-- Embedding of main.py lines 107-112: after a sweep that found an
object the tilt is unchanged; otherwise the boredom step is subtracted,
and if the result falls below -20 the tilt is reset to the initial tilt
of the run. -/
def next_tilt (found_object_in_scan : Bool)
    (current_tilt boredom_tilt_step initial_tilt : ℚ) : ℚ :=
  if found_object_in_scan then current_tilt
  else
    let t := current_tilt - boredom_tilt_step
    if t < -20 then initial_tilt else t

/-! ## Lemmas about the FOV model -/

/-- Unfolding get_fov_from_zoom into its two axis instances. -/
theorem get_fov_from_zoom_eq (z : ℝ) :
    get_fov_from_zoom z = (fov_axis 65.66 z, fov_axis 39.40 z) := rfl

/-- The half wide-angle in radians is positive for positive w. -/
theorem radians_half_pos {w : ℝ} (h0 : 0 < w) : 0 < radians (w / 2) := by
  unfold radians
  positivity

/-- The half wide-angle in radians stays below a right angle for w < 180. -/
theorem radians_half_lt {w : ℝ} (h180 : w < 180) : radians (w / 2) < π / 2 := by
  unfold radians
  nlinarith [Real.pi_pos]

/-- The tangent of the half wide-angle is positive. -/
theorem tan_radians_half_pos {w : ℝ} (h0 : 0 < w) (h180 : w < 180) :
    0 < Real.tan (radians (w / 2)) :=
  Real.tan_pos_of_pos_of_lt_pi_div_two (radians_half_pos h0) (radians_half_lt h180)

/-- The clamped zoom is at least one. -/
theorem one_le_clamp (z : ℝ) : 1 ≤ max 1 (min 40 z) := le_max_left _ _

/-- Degree conversion is monotone. -/
theorem degrees_le_degrees {x y : ℝ} (h : x ≤ y) : degrees x ≤ degrees y := by
  unfold degrees
  have hπ := Real.pi_pos
  gcongr

/-- Arctangent is below the identity on positive reals. -/
theorem arctan_lt_self_of_pos {x : ℝ} (hx : 0 < x) : Real.arctan x < x := by
  have h0 : 0 < Real.arctan x := by
    have := Real.arctan_strictMono hx
    rwa [Real.arctan_zero] at this
  have h := Real.lt_tan h0 (Real.arctan_lt_pi_div_two x)
  rwa [Real.tan_arctan] at h

/-- At zoom one the axis formula returns the wide-end angle exactly. -/
theorem fov_axis_one {w : ℝ} (h0 : 0 < w) (h180 : w < 180) : fov_axis w 1 = w := by
  have hclamp : max (1 : ℝ) (min 40 1) = 1 := by norm_num
  have harg : 2 * 4.25 * Real.tan (radians (w / 2)) / (2 * (4.25 * max 1 (min 40 (1 : ℝ))))
      = Real.tan (radians (w / 2)) := by
    rw [hclamp]
    norm_num
  unfold fov_axis
  rw [harg, Real.arctan_tan (by linarith [radians_half_pos h0, Real.pi_pos])
    (radians_half_lt h180)]
  unfold degrees radians
  field_simp
  ring

/-- The axis formula never exceeds the wide-end angle. -/
theorem fov_axis_le {w : ℝ} (h0 : 0 < w) (h180 : w < 180) (z : ℝ) :
    fov_axis w z ≤ w := by
  have ht := tan_radians_half_pos h0 h180
  have hclamp := one_le_clamp z
  have harg : 2 * 4.25 * Real.tan (radians (w / 2)) / (2 * (4.25 * max 1 (min 40 z)))
      ≤ Real.tan (radians (w / 2)) := by
    rw [div_le_iff₀ (by nlinarith)]
    nlinarith
  have hmono := Real.arctan_strictMono.monotone harg
  have := degrees_le_degrees (by linarith : 2 * Real.arctan
    (2 * 4.25 * Real.tan (radians (w / 2)) / (2 * (4.25 * max 1 (min 40 z))))
      ≤ 2 * Real.arctan (Real.tan (radians (w / 2))))
  calc fov_axis w z ≤ degrees (2 * Real.arctan (Real.tan (radians (w / 2)))) := this
    _ = w := by
        rw [Real.arctan_tan (by linarith [radians_half_pos h0, Real.pi_pos])
          (radians_half_lt h180)]
        unfold degrees radians
        field_simp
        ring

/-- The axis formula is nonnegative. -/
theorem fov_axis_nonneg {w : ℝ} (h0 : 0 < w) (h180 : w < 180) (z : ℝ) :
    0 ≤ fov_axis w z := by
  have ht := tan_radians_half_pos h0 h180
  have hclamp := one_le_clamp z
  have harg : 0 ≤ 2 * 4.25 * Real.tan (radians (w / 2)) / (2 * (4.25 * max 1 (min 40 z))) := by
    positivity
  have h1 : 0 ≤ Real.arctan (2 * 4.25 * Real.tan (radians (w / 2)) /
      (2 * (4.25 * max 1 (min 40 z)))) := by
    have := Real.arctan_strictMono.monotone harg
    rwa [Real.arctan_zero] at this
  unfold fov_axis degrees
  have hπ := Real.pi_pos
  positivity

/-- The axis formula is antitone in the zoom level. -/
theorem fov_axis_antitone {w : ℝ} (h0 : 0 < w) (h180 : w < 180)
    {z1 z2 : ℝ} (h : z1 ≤ z2) : fov_axis w z2 ≤ fov_axis w z1 := by
  have ht := tan_radians_half_pos h0 h180
  have hc1 := one_le_clamp z1
  have hc2 := one_le_clamp z2
  have hclamp : max (1 : ℝ) (min 40 z1) ≤ max 1 (min 40 z2) :=
    max_le_max le_rfl (min_le_min le_rfl h)
  have harg : 2 * 4.25 * Real.tan (radians (w / 2)) / (2 * (4.25 * max 1 (min 40 z2)))
      ≤ 2 * 4.25 * Real.tan (radians (w / 2)) / (2 * (4.25 * max 1 (min 40 z1))) := by
    gcongr
  have hmono := Real.arctan_strictMono.monotone harg
  exact degrees_le_degrees (by linarith)

/-- Wide-end value of the horizontal FOV component. -/
theorem fov_h_le_wide (z : ℝ) : (get_fov_from_zoom z).1 ≤ 65.66 := by
  rw [get_fov_from_zoom_eq]
  exact fov_axis_le (by norm_num) (by norm_num) z

/-- Nonnegativity of the horizontal FOV component. -/
theorem fov_h_nonneg (z : ℝ) : 0 ≤ (get_fov_from_zoom z).1 := by
  rw [get_fov_from_zoom_eq]
  exact fov_axis_nonneg (by norm_num) (by norm_num) z

/-- At zoom one the implementation returns the wide-end FOV pair exactly. -/
theorem get_fov_from_zoom_one : get_fov_from_zoom 1 = (65.66, 39.40) := by
  rw [get_fov_from_zoom_eq,
    fov_axis_one (by norm_num) (by norm_num),
    fov_axis_one (by norm_num) (by norm_num)]

/-! ## Claim theorems -/

/-- Claim C1: for every command-line model name, the detector-construction
call in look_for_object passes three positional arguments to
DetectorFactory.create_detector, whose signature accepts exactly one, so
the call raises TypeError; the startup handler catches it and the process
exits with status 1 before the scan loop is ever entered. -/
theorem C1_detector_call_arity_fatal (model : String) (objects : List String)
    (prompt_context : String) :
    look_for_object_startup model objects prompt_context
      = StartOutcome.exitWithCode 1 := rfl

/-- Claim C5 (code-bug evidence): when the first image capture at a probe
position fails (grab_image returns None), get_image_from_ptz_position
raises through Image.open(None) instead of skipping the position, and the
exception propagates through the unguarded loop in look_for_object: the
sweep over pans 0 and 15 dies at pan 0 and never probes pan 15, contrary
to the skip-and-continue policy. -/
theorem C5_capture_failure_crashes_sweep :
    sweep_probes
      (fun pan => if pan = 0 then ⟨true, none, some ("after0"), []⟩
        else ⟨true, some ("img"), some ("after"), []⟩)
      [0, 15] = PyResult.exn PyErr.attributeError := rfl

/-- Claim C6 (code-bug evidence): for a degenerate bounding box with zero
width (x2 = x1 = 10), the tracking maneuver divides the image width by
bbox width zero and raises ZeroDivisionError instead of treating the
detection as unusable; the exception escapes center_and_maximize_object. -/
theorem C6_degenerate_bbox_raises :
    (center_and_maximize_object (1/10) 10 10 10 20 640 480 1
      (some (1/20)) (some ("bird"))).2 = some PyErr.zeroDivisionError := by
  norm_num [center_and_maximize_object]

/-- Claim C7: after a sweep the tilt is unchanged when an object was
found; otherwise the boredom step is subtracted, except that when the
decremented value falls below -20 the tilt is reset exactly to the run
initial tilt. -/
theorem C7_boredom_tilt_update (found : Bool) (current step init : ℚ) :
    (found = true → next_tilt found current step init = current) ∧
    (found = false → current - step < -20 →
      next_tilt found current step init = init) ∧
    (found = false → ¬(current - step < -20) →
      next_tilt found current step init = current - step) := by
  refine ⟨fun h => ?_, fun h hlt => ?_, fun h hge => ?_⟩ <;> subst h
  · simp [next_tilt]
  · simp only [next_tilt, Bool.false_eq_true, if_false]
    rw [if_pos hlt]
  · simp only [next_tilt, Bool.false_eq_true, if_false]
    rw [if_neg hge]

/-- Witness for C7 at concrete tilt values: found keeps tilt 10; an empty
sweep from tilt -18 with step 5 crosses -20 and resets to the initial 0;
an empty sweep from tilt 10 with step 5 lands at 5. -/
theorem C7_boredom_tilt_update_witness :
    next_tilt true 10 5 0 = 10 ∧ next_tilt false (-18) 5 0 = 0 ∧
    next_tilt false 10 5 0 = 10 - 5 :=
  ⟨(C7_boredom_tilt_update true 10 5 0).1 rfl,
   (C7_boredom_tilt_update false (-18) 5 0).2.1 rfl (by norm_num),
   (C7_boredom_tilt_update false 10 5 0).2.2 rfl (by norm_num)⟩

/-- Claim C8: for every positive pan step s the generated sweep is the
increasing list of multiples of s strictly below 360, and for s = 15 it is
exactly the 24 positions 0, 15, ..., 345. -/
theorem C8_pan_sweep (s : ℕ) (hs : 0 < s) :
    (∀ m : ℕ, m ∈ pans s ↔ s ∣ m ∧ m < 360) ∧
    List.Pairwise (· < ·) (pans s) ∧
    pans 15 = [0, 15, 30, 45, 60, 75, 90, 105, 120, 135, 150, 165, 180,
      195, 210, 225, 240, 255, 270, 285, 300, 315, 330, 345] := by
  have hn : (360 + s - 1) / s = 359 / s + 1 := by
    have h359 : 360 + s - 1 = 359 + s := by omega
    rw [h359, Nat.add_div_right _ hs]
  refine ⟨fun m => ?_, ?_, by rfl⟩
  · simp only [pans, List.mem_map, List.mem_range]
    constructor
    · rintro ⟨i, hi, rfl⟩
      refine ⟨⟨i, mul_comm i s⟩, ?_⟩
      rw [hn] at hi
      have hle : i ≤ 359 / s := by omega
      have h1 : i * s ≤ 359 / s * s := Nat.mul_le_mul_right s hle
      have h2 : 359 / s * s ≤ 359 := Nat.div_mul_le_self 359 s
      omega
    · rintro ⟨⟨k, rfl⟩, hlt⟩
      refine ⟨k, ?_, mul_comm k s⟩
      rw [hn]
      rw [mul_comm] at hlt
      have hk : k * s ≤ 359 := by omega
      have := (Nat.le_div_iff_mul_le hs).2 hk
      omega
  · exact (List.pairwise_lt_range _).map _
      (fun a b hab => mul_lt_mul_of_pos_right hab hs)

/-- Witness for C8 at the default step 15. -/
theorem C8_pan_sweep_witness :
    0 < 15 ∧
    ((∀ m : ℕ, m ∈ pans 15 ↔ 15 ∣ m ∧ m < 360) ∧
      List.Pairwise (· < ·) (pans 15) ∧
      pans 15 = [0, 15, 30, 45, 60, 75, 90, 105, 120, 135, 150, 165, 180,
        195, 210, 225, 240, 255, 270, 285, 300, 315, 330, 345]) :=
  ⟨by decide, C8_pan_sweep 15 (by decide)⟩

/-- Claim C3 (counterexample): for image 1000 x 1000, a bounding box of
width exactly 0.8 * 1000 = 800 (height 100) and current zoom 1, the zoom
step computed by the source is 7/32, not 0: the code does not use the
spec formula targetWidth / bboxWidth with clamping, but
(zoom/40) * min(W/bw, H/bh) * 39 - zoom. -/
theorem C3_zoom_formula_counterexample :
    (800 : ℚ) = 0.8 * 1000 ∧
    relative_zoom_calc 1000 1000 800 100 1 ≠ 0 := by
  constructor
  · norm_num
  · have hmin : min (((1000 : ℚ) : ℝ) / ((800 : ℚ) : ℝ))
        (((1000 : ℚ) : ℝ) / ((100 : ℚ) : ℝ))
        = ((1000 : ℚ) : ℝ) / ((800 : ℚ) : ℝ) := by
      rw [min_eq_left]
      push_cast
      norm_num
    simp only [relative_zoom_calc]
    rw [hmin]
    push_cast
    norm_num

/-- Claim C3 (amended): the tracking zoom step computes
relative_zoom = (currentZoom / 40) * min(W / bboxWidth, H / bboxHeight) * 39
- currentZoom, with no clamping in the relative-move variant; for a
bounding box of width 0.8 * W whose width ratio is the binding minimum,
this equals (7/32) * currentZoom, which is nonzero for any positive zoom. -/
theorem C3_zoom_step_formula (W H bw bh : ℚ) (z : ℝ)
    (hW : 0 < W) (hbw : bw = 0.8 * W)
    (hmin : (W : ℝ) / (bw : ℝ) ≤ (H : ℝ) / (bh : ℝ)) :
    relative_zoom_calc W H bw bh z = 7 / 32 * z := by
  simp only [relative_zoom_calc]
  rw [min_eq_left hmin]
  have hWne : ((W : ℚ) : ℝ) ≠ 0 := by
    have : (0 : ℝ) < ((W : ℚ) : ℝ) := by exact_mod_cast hW
    linarith
  have hbwr : ((bw : ℚ) : ℝ) = 0.8 * ((W : ℚ) : ℝ) := by
    rw [hbw]
    push_cast
    ring
  rw [hbwr]
  field_simp
  ring

/-- Witness for C3 at image 1000 x 1000, bbox 800 x 100, zoom 2. -/
theorem C3_zoom_step_formula_witness :
    relative_zoom_calc 1000 1000 800 100 2 = 7 / 32 * 2 :=
  C3_zoom_step_formula 1000 1000 800 100 2 (by norm_num) (by norm_num)
    (by push_cast; norm_num)

/-- Claim C4 (counterexample): on a qualifying detection (confidence
threshold 0.1, reward 0.2, bbox 100-300 x 50-250 in a 400 x 300 image,
zoom 1), the maneuver issues two relative moves, not one combined move,
and performs no settle sleep at all. -/
theorem C4_single_move_counterexample :
    ((center_and_maximize_object (1/10) 100 50 300 250 400 300 1
        (some (2/10)) (some ("bird"))).1.countP isRelMove = 2) ∧
    ((center_and_maximize_object (1/10) 100 50 300 250 400 300 1
        (some (2/10)) (some ("bird"))).1.countP isSleep = 0) := by
  norm_num [center_and_maximize_object, List.countP_cons, List.countP_nil,
    isRelMove, isSleep]

/-- Claim C4 (amended): for every selected detection with a nondegenerate
bounding box, the maneuver issues exactly two relative moves - first
(pan, tilt) and then (0, 0, relative_zoom) - with no settle sleep anywhere,
raises nothing, and takes exactly one confirmation snapshot precisely when
a reward is given, it is strictly below 1 - confidence, and a label is
given; otherwise no snapshot. -/
theorem C4_tracking_trace_shape (confidence x1 y1 x2 y2 W H : ℚ) (z : ℝ)
    (reward : Option ℚ) (label : Option String)
    (hbw : ¬(x2 - x1 = 0)) (hbh : ¬(y2 - y1 = 0)) :
    (center_and_maximize_object confidence x1 y1 x2 y2 W H z
      reward label).1.countP isRelMove = 2 ∧
    (center_and_maximize_object confidence x1 y1 x2 y2 W H z
      reward label).1.countP isSleep = 0 ∧
    (center_and_maximize_object confidence x1 y1 x2 y2 W H z
      reward label).2 = none ∧
    (center_and_maximize_object confidence x1 y1 x2 y2 W H z
      reward label).1.countP isSnapshotCmd =
      (match reward, label with
       | some r, some _ => if r < 1 - confidence then 1 else 0
       | _, _ => 0) := by
  simp only [center_and_maximize_object, if_neg hbw, if_neg hbh]
  rcases reward with _ | r <;> rcases label with _ | lbl <;>
    simp [List.countP_cons, List.countP_nil, isRelMove, isSleep, isSnapshotCmd]
  split_ifs <;>
    simp [List.countP_cons, List.countP_nil, isRelMove, isSleep, isSnapshotCmd]

/-- Witness for C4 on a concrete qualifying detection. -/
theorem C4_tracking_trace_shape_witness :
    (center_and_maximize_object (1/10) 100 50 300 250 400 300 2
      (some (2/10)) (some ("cat"))).1.countP isRelMove = 2 ∧
    (center_and_maximize_object (1/10) 100 50 300 250 400 300 2
      (some (2/10)) (some ("cat"))).1.countP isSleep = 0 ∧
    (center_and_maximize_object (1/10) 100 50 300 250 400 300 2
      (some (2/10)) (some ("cat"))).2 = none ∧
    (center_and_maximize_object (1/10) 100 50 300 250 400 300 2
      (some (2/10)) (some ("cat"))).1.countP isSnapshotCmd =
      (match some ((2 : ℚ)/10), some ("cat") with
       | some r, some _ => if r < 1 - (1 : ℚ)/10 then 1 else 0
       | _, _ => 0) :=
  C4_tracking_trace_shape (1/10) 100 50 300 250 400 300 2
    (some (2/10)) (some ("cat")) (by norm_num) (by norm_num)

/-- Claim C9: for every image with positive dimensions and every bounding
box whose center coincides with the image center, the centering transform
yields a zero pan offset and a zero tilt offset, at every zoom level. -/
theorem C9_centered_bbox_zero_offsets (x1 y1 x2 y2 W H : ℚ) (z : ℝ)
    (hW : 0 < W) (hH : 0 < H)
    (hx : (x1 + x2) / 2 = W / 2) (hy : (y1 + y2) / 2 = H / 2) :
    pan_tilt_delta x1 y1 x2 y2 W H z = (0, 0) := by
  have hx' : ((x1 : ℝ) + (x2 : ℝ)) / 2 = (W : ℝ) / 2 := by exact_mod_cast hx
  have hy' : ((y1 : ℝ) + (y2 : ℝ)) / 2 = (H : ℝ) / 2 := by exact_mod_cast hy
  simp only [pan_tilt_delta]
  rw [hx', hy']
  simp

/-- Witness for C9 at a centered 200 x 200 box in a 400 x 300 image. -/
theorem C9_centered_bbox_zero_offsets_witness :
    pan_tilt_delta 100 50 300 250 400 300 1 = (0, 0) :=
  C9_centered_bbox_zero_offsets 100 50 300 250 400 300 1
    (by norm_num) (by norm_num) (by norm_num) (by norm_num)

/-- Helper bound for C2: at zoom 2 the horizontal FOV computed by the
source is below 60 degrees, far from the 64 degrees the linear
interpolation of the spec would give. -/
theorem fov_h_at_two_lt_60 : (get_fov_from_zoom 2).1 < 60 := by
  rw [get_fov_from_zoom_eq]
  show fov_axis 65.66 2 < 60
  have hc : max (1 : ℝ) (min 40 2) = 2 := by norm_num
  have ht0 : 0 < Real.tan (radians (65.66 / 2)) :=
    tan_radians_half_pos (by norm_num) (by norm_num)
  have ht1 : Real.tan (radians (65.66 / 2)) < 1 := by
    have h4 : radians (65.66 / 2) < π / 4 := by
      unfold radians
      nlinarith [Real.pi_pos]
    have h := Real.tan_lt_tan_of_nonneg_of_lt_pi_div_two
      (le_of_lt (radians_half_pos (by norm_num : (0 : ℝ) < 65.66)))
      (by linarith [Real.pi_pos] : π / 4 < π / 2) h4
    rwa [Real.tan_pi_div_four] at h
  have harg : 2 * 4.25 * Real.tan (radians (65.66 / 2)) / (2 * (4.25 * 2))
      = Real.tan (radians (65.66 / 2)) / 2 := by
    ring
  have harctan : Real.arctan (Real.tan (radians (65.66 / 2)) / 2)
      < Real.tan (radians (65.66 / 2)) / 2 :=
    arctan_lt_self_of_pos (by linarith)
  unfold fov_axis degrees
  rw [hc, harg, div_lt_iff₀ Real.pi_pos]
  nlinarith [Real.pi_gt_three]

/-- Claim C2 (counterexample): at zoom 2 the horizontal FOV returned by
the source differs from the linear interpolation required by the claim:
the implementation gives a value below 60 degrees while the linear
formula gives about 64.02 degrees. -/
theorem C2_fov_not_linear :
    (get_fov_from_zoom 2).1 ≠ (fov_linear_spec 2).1 := by
  have hub := fov_h_at_two_lt_60
  have hlin : (fov_linear_spec 2).1 = 65.66 - (2 - 1) / (40 - 1) * (65.66 - 1.88) := by
    simp only [fov_linear_spec]
    norm_num
  have hgt : (60 : ℝ) < (fov_linear_spec 2).1 := by
    rw [hlin]
    norm_num
  exact ne_of_lt (lt_trans hub hgt)

/-- Claim C2 (amended): the source computes the FOV from a pinhole model
with an arctangent, not by linear interpolation; the zoom is clamped to
[1, 40], the value at zoom 1 is exactly the wide pair (65.66, 39.40), and
both axes are monotonically non-increasing in the zoom. -/
theorem C2_fov_pinhole_properties (z w : ℝ) (hzw : z ≤ w) :
    get_fov_from_zoom 1 = (65.66, 39.40) ∧
    (get_fov_from_zoom w).1 ≤ (get_fov_from_zoom z).1 ∧
    (get_fov_from_zoom w).2 ≤ (get_fov_from_zoom z).2 := by
  refine ⟨get_fov_from_zoom_one, ?_, ?_⟩ <;> rw [get_fov_from_zoom_eq, get_fov_from_zoom_eq]
  · exact fov_axis_antitone (by norm_num) (by norm_num) hzw
  · exact fov_axis_antitone (by norm_num) (by norm_num) hzw

/-- Witness for C2 at zoom levels 1 and 2. -/
theorem C2_fov_pinhole_properties_witness :
    (1 : ℝ) ≤ 2 ∧
    (get_fov_from_zoom 1 = (65.66, 39.40) ∧
      (get_fov_from_zoom 2).1 ≤ (get_fov_from_zoom 1).1 ∧
      (get_fov_from_zoom 2).2 ≤ (get_fov_from_zoom 1).2) :=
  ⟨by norm_num, C2_fov_pinhole_properties 1 2 (by norm_num)⟩

/-- Claim C10 (counterexample): with current pose pan 343.585, tilt 0,
zoom 1 (all satisfying the pose invariants) and a detection box
250-350 x 50-250 in a 400 x 300 image, the pan offset is exactly
65.66 / 4 = 16.415 degrees, the unwrapped absolute pan is exactly 360,
and the wrap of the source (which only fires strictly above 360) leaves
it at 360, outside the claimed interval [0, 360). -/
theorem C10_pan_wrap_counterexample :
    (absolute_target 343.585 0 1 250 50 350 250 400 300).1 = 360 ∧
    ¬((absolute_target 343.585 0 1 250 50 350 250 400 300).1 < 360) := by
  have hpt : (pan_tilt_delta 250 50 350 250 400 300 1).1 = 16.415 := by
    simp only [pan_tilt_delta, get_fov_from_zoom_one]
    push_cast
    norm_num
  have h1 : (absolute_target 343.585 0 1 250 50 350 250 400 300).1 = 360 := by
    simp only [absolute_target]
    rw [hpt]
    norm_num
  exact ⟨h1, by rw [h1]; exact lt_irrefl 360⟩

/-- Claim C10 (amended): in the batch tracking variant, for every current
pose with pan in [0, 360) and every detection whose bounding box lies
within the image, the computed absolute pose satisfies pan in the closed
interval [0, 360] (the boundary value 360 itself is reachable and is not
wrapped), tilt in [-20, 90] and zoom in [1, 40]. -/
theorem C10_absolute_pose_invariants (current_pan current_tilt current_zoom : ℝ)
    (x1 y1 x2 y2 W H : ℚ)
    (hp0 : 0 ≤ current_pan) (hp1 : current_pan < 360)
    (hW : 0 < W) (hx0 : 0 ≤ x1) (hx12 : x1 ≤ x2) (hx2W : x2 ≤ W) :
    (0 ≤ (absolute_target current_pan current_tilt current_zoom
        x1 y1 x2 y2 W H).1 ∧
      (absolute_target current_pan current_tilt current_zoom
        x1 y1 x2 y2 W H).1 ≤ 360) ∧
    (-20 ≤ (absolute_target current_pan current_tilt current_zoom
        x1 y1 x2 y2 W H).2.1 ∧
      (absolute_target current_pan current_tilt current_zoom
        x1 y1 x2 y2 W H).2.1 ≤ 90) ∧
    (1 ≤ (absolute_target current_pan current_tilt current_zoom
        x1 y1 x2 y2 W H).2.2 ∧
      (absolute_target current_pan current_tilt current_zoom
        x1 y1 x2 y2 W H).2.2 ≤ 40) := by
  have hWR : (0 : ℝ) < (W : ℝ) := by exact_mod_cast hW
  have hsum0 : (0 : ℝ) ≤ (x1 : ℝ) + (x2 : ℝ) := by
    have h : (0 : ℚ) ≤ x1 + x2 := by linarith
    exact_mod_cast h
  have hsum2 : (x1 : ℝ) + (x2 : ℝ) ≤ 2 * (W : ℝ) := by
    have h : (x1 : ℚ) + x2 ≤ 2 * W := by linarith
    exact_mod_cast h
  have hF0 : 0 ≤ (get_fov_from_zoom current_zoom).1 := fov_h_nonneg current_zoom
  have hF1 : (get_fov_from_zoom current_zoom).1 ≤ 65.66 := fov_h_le_wide current_zoom
  have hd : (pan_tilt_delta x1 y1 x2 y2 W H current_zoom).1
      = -(((W : ℝ) / 2 - ((x1 : ℝ) + (x2 : ℝ)) / 2) / (W : ℝ))
        * (get_fov_from_zoom current_zoom).1 := rfl
  have hdhi : (pan_tilt_delta x1 y1 x2 y2 W H current_zoom).1 ≤ 32.83 := by
    rw [hd]
    set r := ((W : ℝ) / 2 - ((x1 : ℝ) + (x2 : ℝ)) / 2) / (W : ℝ) with hrdef
    have hrlo : -(1 / 2 : ℝ) ≤ r := by
      rw [hrdef, le_div_iff₀ hWR]
      linarith
    have hprod := mul_nonneg (by linarith : (0 : ℝ) ≤ 1 / 2 + r) hF0
    nlinarith [hF1]
  have hdlo : -(32.83 : ℝ) ≤ (pan_tilt_delta x1 y1 x2 y2 W H current_zoom).1 := by
    rw [hd]
    set r := ((W : ℝ) / 2 - ((x1 : ℝ) + (x2 : ℝ)) / 2) / (W : ℝ) with hrdef
    have hrhi : r ≤ (1 / 2 : ℝ) := by
      rw [hrdef, div_le_iff₀ hWR]
      linarith
    have hprod := mul_nonneg (by linarith : (0 : ℝ) ≤ 1 / 2 - r) hF0
    nlinarith [hF1]
  refine ⟨?_, ?_, ?_⟩
  · simp only [absolute_target]
    split_ifs with h1 h2 <;> constructor <;> linarith
  · simp only [absolute_target]
    split_ifs with h1 h2 <;> constructor <;> linarith
  · simp only [absolute_target]
    split_ifs with h1 h2 <;> constructor <;> linarith

/-- Witness for C10 at pose pan 10, tilt 0, zoom 1 and a 200 x 200 box at
100-300 x 50-250 in a 400 x 300 image. -/
theorem C10_absolute_pose_invariants_witness :
    (0 ≤ (absolute_target 10 0 1 100 50 300 250 400 300).1 ∧
      (absolute_target 10 0 1 100 50 300 250 400 300).1 ≤ 360) ∧
    (-20 ≤ (absolute_target 10 0 1 100 50 300 250 400 300).2.1 ∧
      (absolute_target 10 0 1 100 50 300 250 400 300).2.1 ≤ 90) ∧
    (1 ≤ (absolute_target 10 0 1 100 50 300 250 400 300).2.2 ∧
      (absolute_target 10 0 1 100 50 300 250 400 300).2.2 ≤ 40) :=
  C10_absolute_pose_invariants 10 0 1 100 50 300 250 400 300
    (by norm_num) (by norm_num) (by norm_num) (by norm_num)
    (by norm_num) (by norm_num)
